import Mathlib

/-!
# Verification of the credit-metered backend

A shallow embedding, in Lean 4, of the credit-metering core of the
`chi-mongo-backend` Go service: the credits repository and service, the
user service (registration / auto-provisioning), the API-key service,
the credit-token service, the technical-to-user error translator, and
the per-operation HTTP handlers (face detection, face verification,
QR masking).

Modelling conventions:
* MongoDB collections are modelled as association lists / lists of
  records; `FindOne` is first-match lookup, `UpdateOne` updates the
  first matching record, `DeleteMany` filters, `DeleteOne` removes the
  first match.
* Go `int` is modelled as `Int` (the balances and amounts involved are
  tiny, far from any 64-bit wrap).
* Fallible store writes that the claims depend on (`InsertOne`,
  `DeleteOne` failing for infrastructure reasons) are modelled by
  explicit failure-injection flags.
* Timestamps are modelled as integers where a comparison matters and
  omitted where only recorded; wall-clock-only fields (processing time,
  IP address, user agent) are omitted from the usage-record model.
* Go strings are Lean `String`s; `strings.ToLower` / `TrimSpace` /
  `Contains` are re-implemented over character lists (the table keys
  and scenario inputs are ASCII, where the Go and Lean versions agree).
-/

namespace Backend

/-! ## String helpers (Go `strings` package, ASCII fragment) -/

/-- Go `strings.ToLower` (ASCII): lower-case every character. -/
def goToLower (s : String) : String :=
  String.mk (s.toList.map Char.toLower)

/-- Go `strings.TrimSpace`: drop leading and trailing whitespace. -/
def goTrimSpace (s : String) : String :=
  String.mk (((s.toList.dropWhile Char.isWhitespace).reverse.dropWhile
    Char.isWhitespace).reverse)

/-- Whether the first list is an initial segment of the second. -/
def leadsList : List Char → List Char → Bool
  | [], _ => true
  | _ :: _, [] => false
  | a :: as, b :: bs => a = b && leadsList as bs

/-- Whether `needle` occurs contiguously inside `hay`. -/
def occursIn (needle : List Char) : List Char → Bool
  | [] => leadsList needle []
  | c :: rest => leadsList needle (c :: rest) || occursIn needle rest

/-- Go `strings.Contains s substr`. -/
def goContains (s substr : String) : Bool :=
  occursIn substr.toList s.toList

/-! ## `pkg/errors`: error types and `AppError` -/

def ErrValidation : String := "VALIDATION_ERROR"
def ErrNotFound : String := "NOT_FOUND"
def ErrUserNotFound : String := "USER_NOT_FOUND"
def ErrUserAlreadyExists : String := "USER_ALREADY_EXISTS"
def ErrCreditsNotFound : String := "CREDITS_NOT_FOUND"
def ErrInsufficientCredits : String := "INSUFFICIENT_CREDITS"
def ErrUnauthorized : String := "UNAUTHORIZED"
def ErrForbidden : String := "FORBIDDEN"
def ErrInternalServer : String := "INTERNAL_SERVER_ERROR"
def ErrBadRequest : String := "BAD_REQUEST"

/-- The `original_response` payload attached to translated upstream
errors (the ordered `{req_id, success, error_message, data}` struct the
face-detection handler builds). -/
structure OrigResponse where
  reqID : String
  success : Bool
  errorMessage : String
  data : List String
deriving Repr, DecidableEq

/-- Go `apperrors.AppError` (the `Details`/user-friendly fields that the
claims inspect; `OriginalResponse` is typed as the one payload shape the
modelled handlers store in it). -/
structure AppError where
  typ : String
  statusCode : Nat
  message : String
  details : String
  userMessage : String
  technicalMessage : String
  suggestion : String
  errorCode : String
  originalResponse : Option OrigResponse
deriving Repr, DecidableEq

/-- Go `apperrors.NewAppError` (with the optional `details` argument
made explicit; call sites without details pass `""`). -/
def NewAppError (typ : String) (statusCode : Nat) (message : String)
    (details : String) : AppError :=
  { typ := typ, statusCode := statusCode, message := message,
    details := details, userMessage := "", technicalMessage := "",
    suggestion := "", errorCode := "", originalResponse := none }

def NewUserNotFoundError : AppError :=
  NewAppError ErrUserNotFound 404 "User not found" ""

def NewUserAlreadyExistsError : AppError :=
  NewAppError ErrUserAlreadyExists 409 "User already exists" ""

def NewCreditsNotFoundError : AppError :=
  NewAppError ErrCreditsNotFound 404 "Credits record not found" ""

def NewInsufficientCreditsError : AppError :=
  NewAppError ErrInsufficientCredits 400 "Insufficient credits" ""

/-! ## `pkg/errors`: the API error mapper (`ErrorTranslator`) -/

/-- Go `apperrors.UserFriendlyError`. -/
structure UserFriendlyError where
  userMessage : String
  technicalMessage : String
  suggestion : String
  errorCode : String
deriving Repr, DecidableEq

/-- The static table built by `NewAPIErrorMapper`, in source order.
(Go stores it in a map whose iteration order is unspecified; the exact
lookup is order-independent, and the substring scan is treated
existentially in the theorems below.) -/
def errorMappings : List (String × UserFriendlyError) :=
  [ ("low confidence in keypoints",
      { userMessage := "Please upload a different image",
        technicalMessage := "Low confidence in keypoints",
        suggestion := "Try uploading a clearer image with better lighting and ensure the ID document is fully visible",
        errorCode := "ID_CROP_001" }),
    ("image too blurry",
      { userMessage := "Image quality is too low",
        technicalMessage := "Image too blurry",
        suggestion := "Please upload a sharper, clearer image of your ID document",
        errorCode := "ID_CROP_002" }),
    ("document not detected",
      { userMessage := "ID document not found in image",
        technicalMessage := "Document not detected",
        suggestion := "Please ensure the entire ID document is visible in the image",
        errorCode := "ID_CROP_003" }),
    ("invalid image format",
      { userMessage := "Unsupported image format",
        technicalMessage := "Invalid image format",
        suggestion := "Please upload a valid image file (JPG, PNG, etc.)",
        errorCode := "ID_CROP_004" }),
    ("no face detected",
      { userMessage := "No face found in the image",
        technicalMessage := "No face detected",
        suggestion := "Please ensure your face is clearly visible in the image",
        errorCode := "FACE_DET_001" }),
    ("multiple faces detected",
      { userMessage := "Multiple faces detected",
        technicalMessage := "Multiple faces detected",
        suggestion := "Please upload an image with only one face",
        errorCode := "FACE_DET_002" }),
    ("face too small",
      { userMessage := "Face is too small in the image",
        technicalMessage := "Face too small",
        suggestion := "Please upload an image where your face takes up more of the frame",
        errorCode := "FACE_DET_003" }),
    ("face could not be detected",
      { userMessage := "No face found in the image",
        technicalMessage := "Face could not be detected in numpy array",
        suggestion := "Please confirm that the picture is a face photo and try again with a clearer image",
        errorCode := "FACE_DET_004" }),
    ("image processing failed",
      { userMessage := "Unable to process the image",
        technicalMessage := "Image processing failed",
        suggestion := "Please upload a valid image file (JPG, PNG, etc.) and ensure it\x27s not corrupted",
        errorCode := "FACE_DET_005" }),
    ("cannot identify image file",
      { userMessage := "Invalid or corrupted image file",
        technicalMessage := "Cannot identify image file",
        suggestion := "Please upload a valid image file (JPG, PNG, etc.) and ensure it\x27s not corrupted",
        errorCode := "FACE_DET_006" }),
    ("invalid base64 encoding",
      { userMessage := "Invalid image data",
        technicalMessage := "Invalid base64 encoding",
        suggestion := "Please ensure the image is properly encoded and try again",
        errorCode := "FACE_DET_007" }),
    ("qr code not found",
      { userMessage := "QR code not detected",
        technicalMessage := "QR code not found",
        suggestion := "Please ensure the QR code is clearly visible and not damaged",
        errorCode := "QR_001" }),
    ("qr code damaged",
      { userMessage := "QR code appears to be damaged",
        technicalMessage := "QR code damaged",
        suggestion := "Please upload an image with a clear, undamaged QR code",
        errorCode := "QR_002" }),
    ("no qr code detected",
      { userMessage := "QR code not detected",
        technicalMessage := "No QR code detected",
        suggestion := "Please ensure the QR code is clearly visible in the image",
        errorCode := "QR_003" }),
    ("qr code unreadable",
      { userMessage := "QR code cannot be read",
        technicalMessage := "QR code unreadable",
        suggestion := "Please upload a clearer image with better lighting and ensure the QR code is not damaged",
        errorCode := "QR_004" }),
    ("uploaded base64 is not a valid image",
      { userMessage := "Invalid image data",
        technicalMessage := "Uploaded base64 is not a valid image",
        suggestion := "Please upload a valid image file (JPG, PNG, etc.) and ensure it\x27s properly encoded",
        errorCode := "QR_005" }),
    ("image format not supported",
      { userMessage := "Unsupported image format",
        technicalMessage := "Image format not supported",
        suggestion := "Please upload a valid image file in JPG, PNG, or similar format",
        errorCode := "QR_006" }),
    ("qr extraction failed",
      { userMessage := "QR code extraction failed",
        technicalMessage := "QR extraction failed",
        suggestion := "Please ensure the image contains a clear QR code and try again",
        errorCode := "QR_007" }),
    ("image too small",
      { userMessage := "Image resolution is too low",
        technicalMessage := "Image too small",
        suggestion := "Please upload a higher resolution image of the QR code",
        errorCode := "QR_008" }),
    ("image too large",
      { userMessage := "Image file is too large",
        technicalMessage := "Image too large",
        suggestion := "Please upload a smaller image file (under 10MB)",
        errorCode := "QR_009" }),
    ("signature not clear",
      { userMessage := "Signature is not clear enough",
        technicalMessage := "Signature not clear",
        suggestion := "Please upload a clearer image of the signature",
        errorCode := "SIG_001" }),
    ("no signature found",
      { userMessage := "No signature detected in the image",
        technicalMessage := "No signature found",
        suggestion := "Please ensure the signature is clearly visible in the image",
        errorCode := "SIG_002" }),
    ("processing failed",
      { userMessage := "Processing failed",
        technicalMessage := "Processing failed",
        suggestion := "Please try again with a different image",
        errorCode := "GEN_001" }),
    ("timeout",
      { userMessage := "Request timed out",
        technicalMessage := "Timeout",
        suggestion := "Please try again later",
        errorCode := "GEN_002" }),
    ("server error",
      { userMessage := "Service temporarily unavailable",
        technicalMessage := "Server error",
        suggestion := "Please try again later",
        errorCode := "GEN_003" }),
    ("internal server error",
      { userMessage := "Service temporarily unavailable",
        technicalMessage := "Internal server error",
        suggestion := "Please try again later or contact support if the issue persists",
        errorCode := "GEN_004" }),
    ("api returned status",
      { userMessage := "Service temporarily unavailable",
        technicalMessage := "External API error",
        suggestion := "Please try again later",
        errorCode := "GEN_005" }) ]

/-- Exact (map-index) lookup in the error table. -/
def lookupExact : List (String × UserFriendlyError) → String →
    Option UserFriendlyError
  | [], _ => none
  | (k, v) :: rest, s => if k = s then some v else lookupExact rest s

/-- The substring ("contains") scan over the error table: the first
listed entry whose key occurs in `s`.  (Go iterates the map in an
unspecified order; theorems about this branch only ever claim that the
result is the entry of *some* contained key.) -/
def scanContained : List (String × UserFriendlyError) → String →
    Option UserFriendlyError
  | [], _ => none
  | (k, v) :: rest, s =>
    if goContains s k then some v else scanContained rest s

/-- The fallback `MapError` returns when nothing matches. -/
def fallbackError (technicalError : String) : UserFriendlyError :=
  { userMessage := "Processing failed",
    technicalMessage := technicalError,
    suggestion := "Please try again with a different image or contact support if the issue persists",
    errorCode := "GEN_UNKNOWN" }

/-- Go `(*APIErrorMapper).MapError`. -/
def MapError (technicalError : String) : UserFriendlyError :=
  let lowerError := goToLower (goTrimSpace technicalError)
  match lookupExact errorMappings lowerError with
  | some userError => userError
  | none =>
    match scanContained errorMappings lowerError with
    | some userError => userError
    | none => fallbackError technicalError

/-- Go `apperrors.NewAPIError`: wrap a translated error as a 400
`AppError`. -/
def NewAPIError (technicalError : String) : AppError :=
  let userError := MapError technicalError
  { typ := ErrBadRequest, statusCode := 400,
    message := userError.userMessage,
    details := userError.technicalMessage,
    userMessage := userError.userMessage,
    technicalMessage := userError.technicalMessage,
    suggestion := userError.suggestion,
    errorCode := userError.errorCode,
    originalResponse := none }

/-- Go `apperrors.NewAPIErrorWithOriginalResponse`. -/
def NewAPIErrorWithOriginalResponse (technicalError : String)
    (originalResponse : OrigResponse) : AppError :=
  { NewAPIError technicalError with
    originalResponse := some originalResponse }

/-! ## Credits: model, repository, service -/

/-- The credits collection: one `{userId, credits}` document per entry
(Go `models.Credits`, minus the Mongo object id). -/
def Balances : Type := List (String × Int)

/-- `FindOne {userId: uid}` on the credits collection. -/
def findBal : List (String × Int) → String → Option Int
  | [], _ => none
  | (u, c) :: rest, uid => if u = uid then some c else findBal rest uid

/-- `UpdateOne {userId: uid} {$inc: {credits: amount}}`: increment the
first matching document. -/
def incBal : List (String × Int) → String → Int → List (String × Int)
  | [], _, _ => []
  | (u, c) :: rest, uid, amount =>
    if u = uid then (u, c + amount) :: rest
    else (u, c) :: incBal rest uid amount

/-- Go `creditsRepository.GetByUserID` (a pure read). -/
def GetByUserID (db : List (String × Int)) (userID : String) :
    Except AppError Int :=
  match findBal db userID with
  | some c => Except.ok c
  | none => Except.error NewCreditsNotFoundError

/-- Go `creditsRepository.UpdateCredits`: `$inc` by `amount`,
`CreditsNotFound` when no document matched. -/
def UpdateCredits (db : List (String × Int)) (userID : String)
    (amount : Int) : Except AppError Unit × List (String × Int) :=
  if (findBal db userID).isSome then
    (Except.ok (), incBal db userID amount)
  else
    (Except.error NewCreditsNotFoundError, db)

/-- Go `creditsRepository.DeductCredits`: read the balance, fail with
`InsufficientCredits` if it is below `amount`, otherwise `$inc` by
`-amount`.  (A read-then-write pair, not a single conditional update —
see the concurrency model below.) -/
def DeductCredits (db : List (String × Int)) (userID : String)
    (amount : Int) : Except AppError Unit × List (String × Int) :=
  match GetByUserID db userID with
  | Except.error e => (Except.error e, db)
  | Except.ok credits =>
    if credits < amount then
      (Except.error NewInsufficientCreditsError, db)
    else
      UpdateCredits db userID (-amount)

/-- Go `AddCreditsRequest` / `DeductCreditsRequest` (identical shapes). -/
structure CreditsAmountRequest where
  userID : String
  amount : Int
deriving Repr, DecidableEq

/-- Go `(*AddCreditsRequest).Validate` and
`(*DeductCreditsRequest).Validate` (identical bodies). -/
def validateCreditsAmountRequest (r : CreditsAmountRequest) :
    Option String :=
  if r.userID = "" then some "userId is required"
  else if r.amount ≤ 0 then some "amount must be positive"
  else none

/-- Go `creditsService.DeductCredits`: validate, read the current
balance, delegate to the repository deduct.  Returns the response
balance (current minus amount) on success. -/
def serviceDeductCredits (db : List (String × Int))
    (req : CreditsAmountRequest) :
    Except AppError Int × List (String × Int) :=
  match validateCreditsAmountRequest req with
  | some msg =>
    (Except.error (NewAppError ErrValidation 400 "validation failed" msg), db)
  | none =>
    match GetByUserID db req.userID with
    | Except.error e => (Except.error e, db)
    | Except.ok currentCredits =>
      match DeductCredits db req.userID req.amount with
      | (Except.error e, db2) => (Except.error e, db2)
      | (Except.ok _, db2) => (Except.ok (currentCredits - req.amount), db2)

/-- Go `creditsService.AddCredits`: validate, read the current balance,
`$inc` by the (positive) amount. -/
def serviceAddCredits (db : List (String × Int))
    (req : CreditsAmountRequest) :
    Except AppError Int × List (String × Int) :=
  match validateCreditsAmountRequest req with
  | some msg =>
    (Except.error (NewAppError ErrValidation 400 "validation failed" msg), db)
  | none =>
    match GetByUserID db req.userID with
    | Except.error e => (Except.error e, db)
    | Except.ok currentCredits =>
      match UpdateCredits db req.userID req.amount with
      | (Except.error e, db2) => (Except.error e, db2)
      | (Except.ok _, db2) => (Except.ok (currentCredits + req.amount), db2)

/-! ## Users: model, repository, user service -/

/-- Go `models.User` (minus the Mongo object id). -/
structure GoUser where
  userID : String
  email : String
deriving Repr, DecidableEq

/-- `FindOne {email: e}` on the users collection. -/
def findUserByEmail : List GoUser → String → Option GoUser
  | [], _ => none
  | u :: rest, e => if u.email = e then some u else findUserByEmail rest e

/-- `FindOne {userId: uid}` on the users collection. -/
def findUserByID : List GoUser → String → Option GoUser
  | [], _ => none
  | u :: rest, uid =>
    if u.userID = uid then some u else findUserByID rest uid

/-- `DeleteOne {userId: uid}`: remove the first matching user. -/
def deleteFirstUser : List GoUser → String → List GoUser
  | [], _ => []
  | u :: rest, uid =>
    if u.userID = uid then rest else u :: deleteFirstUser rest uid

/-- Go `models.RegisterUserRequest`. -/
structure RegisterUserRequest where
  userID : String
  email : String
deriving Repr, DecidableEq

/-- Go `isValidEmail`: contains both "@" and ".". -/
def isValidEmail (email : String) : Bool :=
  goContains email "@" && goContains email "."

/-- Go `(*RegisterUserRequest).Validate`. -/
def validateRegisterUserRequest (r : RegisterUserRequest) :
    Option String :=
  if goTrimSpace r.userID = "" then some "userId is required"
  else if goTrimSpace r.email = "" then some "email is required"
  else if ¬ isValidEmail r.email then some "invalid email format"
  else none

/-- Failure injection for the fallible store writes `RegisterUser` /
`GetOrCreateUser` perform: `InsertOne` on users, `InsertOne` on
credits, `DeleteOne` on users (the rollback). -/
structure FailureModel where
  userCreateFails : Bool
  creditsCreateFails : Bool
  userDeleteFails : Bool
deriving Repr, DecidableEq

/-- The all-writes-succeed failure model. -/
def noFailures : FailureModel :=
  { userCreateFails := false, creditsCreateFails := false,
    userDeleteFails := false }

/-- A generic injected infrastructure error (the Go code propagates the
raw driver `error` here, which is not an `AppError`; only its presence
matters to the claims). -/
def dbError : AppError :=
  NewAppError ErrInternalServer 500 "database error" ""

/-- Go `userService.RegisterUser`: validate, reject an existing user id,
create the user, grant the initial 10 credits, and on a failed grant
roll the user creation back (best effort).  Returns the granted credits
count on success. -/
def RegisterUser (fm : FailureModel) (users : List GoUser)
    (credits : List (String × Int)) (req : RegisterUserRequest) :
    Except AppError (GoUser × Int) × List GoUser × List (String × Int) :=
  match validateRegisterUserRequest req with
  | some msg =>
    (Except.error (NewAppError ErrValidation 400 "validation failed" msg),
     users, credits)
  | none =>
    match findUserByID users req.userID with
    | some _ => (Except.error NewUserAlreadyExistsError, users, credits)
    | none =>
      if fm.userCreateFails then (Except.error dbError, users, credits)
      else
        let user : GoUser := { userID := req.userID, email := req.email }
        let users2 := users ++ [user]
        -- Create initial credits (10 credits)
        if fm.creditsCreateFails then
          -- Rollback user creation if credits creation fails
          if fm.userDeleteFails then
            -- best-effort: the failed rollback is only logged
            (Except.error dbError, users2, credits)
          else
            (Except.error dbError, deleteFirstUser users2 req.userID, credits)
        else
          (Except.ok (user, 10), users2, credits ++ [(req.userID, 10)])

/-- Go `userService.GetOrCreateUser`: look the user up by email and
auto-provision (email as user id, 10 starting credits, best-effort
rollback) when absent. -/
def GetOrCreateUser (fm : FailureModel) (users : List GoUser)
    (credits : List (String × Int)) (email : String) :
    Except AppError GoUser × List GoUser × List (String × Int) :=
  match findUserByEmail users email with
  | some user => (Except.ok user, users, credits)
  | none =>
    let userID := email
    if fm.userCreateFails then (Except.error dbError, users, credits)
    else
      let newUser : GoUser := { userID := userID, email := email }
      let users2 := users ++ [newUser]
      if fm.creditsCreateFails then
        if fm.userDeleteFails then
          (Except.error dbError, users2, credits)
        else
          (Except.error dbError, deleteFirstUser users2 userID, credits)
      else
        (Except.ok newUser, users2, credits ++ [(userID, 10)])

/-! ## API keys: model, repository, service -/

/-- Go `models.APIKey` (the fields the claims inspect; Mongo object id,
display prefix and the timestamp/usage bookkeeping are omitted). -/
structure APIKey where
  userID : String
  email : String
  keyName : String
  keyHash : String
  isActive : Bool
deriving Repr, DecidableEq

/-- Go `apiKeyRepository.DeleteByUserID`:
`DeleteMany {userId: uid}`; a zero delete count is not an error. -/
def DeleteByUserID (keys : List APIKey) (userID : String) : List APIKey :=
  keys.filter (fun k => ¬ (k.userID = userID))

/-- Go `models.CreateAPIKeyRequest` (optional expiry omitted: the
claims never exercise it). -/
structure CreateAPIKeyRequest where
  keyName : String
deriving Repr, DecidableEq

/-- Go `(*CreateAPIKeyRequest).Validate` (the key-name checks;
normalises the name by trimming). -/
def validateCreateAPIKeyRequest (r : CreateAPIKeyRequest) :
    Option String :=
  if goTrimSpace r.keyName = "" then some "keyName is required"
  else if (goTrimSpace r.keyName).length > 50 then
    some "keyName must be 50 characters or less"
  else none

/-- Go `apiKeyService.CreateAPIKey`: validate, require an existing
user, delete any existing key for the user, then insert one new active
key.  The random key material is injected as `newKeyHash` (Go draws it
from `crypto/rand` and stores its SHA-256). -/
def CreateAPIKey (users : List GoUser) (keys : List APIKey)
    (userID email : String) (req : CreateAPIKeyRequest)
    (newKeyHash : String) : Except AppError APIKey × List APIKey :=
  match validateCreateAPIKeyRequest req with
  | some msg =>
    (Except.error (NewAppError ErrValidation 400 "validation failed" msg),
     keys)
  | none =>
    match findUserByID users userID with
    | none => (Except.error NewUserNotFoundError, keys)
    | some _ =>
      let keys2 := DeleteByUserID keys userID
      let record : APIKey :=
        { userID := userID, email := email,
          keyName := goTrimSpace req.keyName,
          keyHash := newKeyHash, isActive := true }
      (Except.ok record, keys2 ++ [record])

/-! ## Credit tokens: model, repository, service -/

/-- Go `models.CreditToken` (timestamps as integer instants; the Mongo
object id and free-text description are omitted). -/
structure CreditToken where
  token : String
  credits : Int
  createdBy : String
  expiresAt : Int
  isUsed : Bool
  usedBy : String
deriving Repr, DecidableEq

/-- Go `(*CreditToken).IsExpired`: `time.Now().After(ExpiresAt)`. -/
def tokenIsExpired (now : Int) (t : CreditToken) : Bool :=
  t.expiresAt < now

/-- `FindOne {token: code}` on the tokens collection. -/
def findToken : List CreditToken → String → Option CreditToken
  | [], _ => none
  | t :: rest, code =>
    if t.token = code then some t else findToken rest code

/-- Go `tokenRepository.MarkAsUsed`: set `{isUsed: true, usedBy}` on
the first matching token, `NotFound` when no document matched. -/
def MarkAsUsed (tokens : List CreditToken) (code userID : String) :
    Except AppError Unit × List CreditToken :=
  match tokens with
  | [] => (Except.error (NewAppError ErrNotFound 404 "token not found" ""),
           [])
  | t :: rest =>
    if t.token = code then
      (Except.ok (), { t with isUsed := true, usedBy := userID } :: rest)
    else
      match MarkAsUsed rest code userID with
      | (r, rest2) => (r, t :: rest2)

/-- Go `models.RedeemTokenRequest`. -/
structure RedeemTokenRequest where
  token : String
deriving Repr, DecidableEq

/-- The parts of Go `models.TokenResponse` the claims inspect. -/
structure TokenRedeemed where
  credits : Int
  remainingCredits : Int
deriving Repr, DecidableEq

/-- Go `creditTokenService.RedeemToken`: validate, fetch the token,
reject used or expired tokens, credit the redeemer, then mark the token
used and report the refreshed balance. -/
def RedeemToken (now : Int) (tokens : List CreditToken)
    (creditsDb : List (String × Int)) (req : RedeemTokenRequest)
    (userID : String) :
    Except AppError TokenRedeemed × List CreditToken × List (String × Int) :=
  if req.token = "" then
    (Except.error (NewAppError ErrValidation 400 "validation failed"
      "token is required"), tokens, creditsDb)
  else
    match findToken tokens req.token with
    | none =>
      (Except.error (NewAppError ErrNotFound 404 "token not found" ""),
       tokens, creditsDb)
    | some token =>
      if token.isUsed then
        (Except.error (NewAppError ErrBadRequest 400
          "token has already been used" ""), tokens, creditsDb)
      else if tokenIsExpired now token then
        (Except.error (NewAppError ErrBadRequest 400
          "token has expired" ""), tokens, creditsDb)
      else
        match UpdateCredits creditsDb userID token.credits with
        | (Except.error e, creditsDb2) => (Except.error e, tokens, creditsDb2)
        | (Except.ok _, creditsDb2) =>
          match MarkAsUsed tokens req.token userID with
          | (Except.error e, tokens2) => (Except.error e, tokens2, creditsDb2)
          | (Except.ok _, tokens2) =>
            match GetByUserID creditsDb2 userID with
            | Except.error e => (Except.error e, tokens2, creditsDb2)
            | Except.ok userCredits =>
              (Except.ok { credits := token.credits,
                           remainingCredits := userCredits },
               tokens2, creditsDb2)

/-! ## Usage tracking -/

/-- Go `models.UsageTrackingRequest` (the outcome fields; transport
metadata — endpoint, HTTP method, IP address, user agent, processing
time — is omitted). -/
structure UsageRecord where
  userID : String
  email : String
  serviceName : String
  success : Bool
  errorMsg : String
  creditsUsed : Int
  authMethod : String
deriving Repr, DecidableEq

/-- Go `getAuthMethod`. -/
def getAuthMethod (isAPIKeyAuth : Bool) : String :=
  if isAPIKeyAuth then "api_key" else "bearer_token"

/-- Build one usage record (the fields of each Go `trackUsage` call, in
declaration order). -/
def mkUsage (userID email serviceName : String) (success : Bool)
    (errorMsg : String) (creditsUsed : Int) (authMethod : String) :
    UsageRecord :=
  { userID := userID, email := email, serviceName := serviceName,
    success := success, errorMsg := errorMsg,
    creditsUsed := creditsUsed, authMethod := authMethod }

/-- Go `(*AppError).Error()`. -/
def appErrorString (e : AppError) : String :=
  if e.details = "" then e.typ ++ ": " ++ e.message
  else e.typ ++ ": " ++ e.message ++ " - " ++ e.details

/-! ## Operation request/result models -/

/-- Go `models.FaceDetectionRequest`. -/
structure FaceDetectionRequest where
  reqID : String
  docBase64 : String
deriving Repr, DecidableEq

/-- Go `(*FaceDetectionRequest).Validate` (Go `len` is byte length; the
scenario inputs are ASCII, where it equals `String.length`). -/
def validateFaceDetectionRequest (r : FaceDetectionRequest) :
    Option String :=
  if goTrimSpace r.reqID = "" then
    some "req_id is required and cannot be empty"
  else if goTrimSpace r.docBase64 = "" then
    some "doc_base64 is required and cannot be empty"
  else if r.docBase64.length < 10 then
    some "doc_base64 appears to be too short to be a valid document"
  else none

/-- Go `models.FaceDetectionResult`. -/
structure FaceDetectionResult where
  reqID : String
  success : Bool
  status : String
  data : List String
  message : String
deriving Repr, DecidableEq

/-- Go `models.FaceVerificationRequest`. -/
structure FaceVerificationRequest where
  reqID : String
  docBase64_1 : String
  docBase64_2 : String
  docType : String
deriving Repr, DecidableEq

/-- Go `(*FaceVerificationRequest).Validate`. -/
def validateFaceVerificationRequest (r : FaceVerificationRequest) :
    Option String :=
  if goTrimSpace r.reqID = "" then
    some "req_id is required and cannot be empty"
  else if goTrimSpace r.docBase64_1 = "" then
    some "doc_base64_1 is required and cannot be empty"
  else if goTrimSpace r.docBase64_2 = "" then
    some "doc_base64_2 is required and cannot be empty"
  else if goTrimSpace r.docType = "" then
    some "doc_type is required and cannot be empty"
  else if ¬ (goToLower (goTrimSpace r.docType) = "face") then
    some "doc_type must be \x27face\x27"
  else if r.docBase64_1.length < 10 then
    some "doc_base64_1 appears to be too short to be a valid document"
  else if r.docBase64_2.length < 10 then
    some "doc_base64_2 appears to be too short to be a valid document"
  else none

/-- Go `models.FaceVerificationResult` (the nested floating-point
confidence payload is omitted: no modelled code path inspects it). -/
structure FaceVerificationResult where
  reqID : String
  success : Bool
  status : String
  message : String
deriving Repr, DecidableEq

/-- Go `models.QRMaskingRequest`. -/
structure QRMaskingRequest where
  reqID : String
  base64Str : String
deriving Repr, DecidableEq

/-- Go `(*QRMaskingRequest).Validate`. -/
def validateQRMaskingRequest (r : QRMaskingRequest) : Option String :=
  if goTrimSpace r.reqID = "" then
    some "req_id is required and cannot be empty"
  else if goTrimSpace r.base64Str = "" then
    some "base64_str is required and cannot be empty"
  else if r.base64Str.length < 10 then
    some "base64_str appears to be too short to be a valid image"
  else none

/-- Go `models.QRMaskingResult`. -/
structure QRMaskingResult where
  reqID : String
  success : Bool
  status : String
  maskedBase64 : String
  message : String
deriving Repr, DecidableEq

/-! ## Handler outcomes -/

/-- The JSON body a modelled handler writes. -/
inductive ResponseBody where
  | err (e : AppError)
  | faceDetOrig (o : OrigResponse)
  | faceDetRaw (r : FaceDetectionResult)
  | faceDetEnvelope (userID : String) (remainingCredits : Int)
      (r : FaceDetectionResult)
  | faceVerRaw (r : FaceVerificationResult)
  | faceVerEnvelope (userID : String) (remainingCredits : Int)
      (r : FaceVerificationResult)
  | qrRaw (r : QRMaskingResult)
  | qrEnvelope (userID : String) (remainingCredits : Int)
      (r : QRMaskingResult)
deriving Repr, DecidableEq

/-- A handler run: HTTP status, body, resulting store state, the usage
records emitted, and whether the upstream operation was invoked. -/
structure HandlerOutcome where
  status : Nat
  body : ResponseBody
  users : List GoUser
  credits : List (String × Int)
  usage : List UsageRecord
  upstreamCalled : Bool
deriving Repr, DecidableEq

/-- The shared user-resolution fragment of the operation handlers:
`GetUserByEmail`, auto-registering (email as user id) when the user is
unknown.  (In the list model the only lookup failure is "not found", so
the Go branch for other lookup errors is vacuous here.) -/
def resolveUserByEmail (fm : FailureModel) (users : List GoUser)
    (credits : List (String × Int)) (email : String) :
    Except AppError GoUser × List GoUser × List (String × Int) :=
  match findUserByEmail users email with
  | some user => (Except.ok user, users, credits)
  | none =>
    match RegisterUser fm users credits
        { userID := email, email := email } with
    | (Except.error ce, users2, credits2) =>
      (Except.error ce, users2, credits2)
    | (Except.ok (user, _), users2, credits2) =>
      (Except.ok user, users2, credits2)

/-! ## Face detection handler (usage-tracked version) -/

/-- `ProcessFaceDetection` after the user is resolved: balance check
(cost 1), upstream call, settlement.  On a structured upstream response
with `success=false` the handler still debits 1 credit (ignoring the
debit result), records the call as successful usage with the upstream
error message, and answers 400 — raw upstream shape for API-key
callers, translated error with the original response attached for
bearer-token callers. -/
def faceDetectionCore (isAPIKeyAuth : Bool) (email : String)
    (user : GoUser) (users : List GoUser)
    (credits : List (String × Int))
    (upstream : Except String FaceDetectionResult) : HandlerOutcome :=
  match GetByUserID credits user.userID with
  | Except.error e =>
    { status := e.statusCode, body := ResponseBody.err e,
      users := users, credits := credits,
      usage := [mkUsage user.userID email "face-detection" false
        ("failed to check balance: " ++ appErrorString e) 0
        (getAuthMethod isAPIKeyAuth)],
      upstreamCalled := false }
  | Except.ok balance =>
    if balance < 1 then
      { status := 400,
        body := ResponseBody.err (NewAppError ErrInsufficientCredits 400
          "insufficient credits for face detection operation (minimum 1 credit required)" ""),
        users := users, credits := credits,
        usage := [mkUsage user.userID email "face-detection" false
          "insufficient credits for face detection operation" 0
          (getAuthMethod isAPIKeyAuth)],
        upstreamCalled := false }
    else
      match upstream with
      | Except.error errStr =>
        { status := 500,
          body := ResponseBody.err (NewAppError ErrInternalServer 500
            ("Face detection operation failed: " ++ errStr) ""),
          users := users, credits := credits,
          usage := [mkUsage user.userID email "face-detection" false
            ("face detection operation failed: " ++ errStr) 0
            (getAuthMethod isAPIKeyAuth)],
          upstreamCalled := true }
      | Except.ok faceResult =>
        if ¬ faceResult.success then
          -- Still deduct credits for API usage even when detection fails
          -- (the Go code drops the deduction result).
          let credits2 := (serviceDeductCredits credits
            { userID := user.userID, amount := 1 }).2
          let origResp : OrigResponse :=
            { reqID := faceResult.reqID, success := faceResult.success,
              errorMessage := faceResult.message, data := faceResult.data }
          let usage1 : List UsageRecord :=
            [mkUsage user.userID email "face-detection" true
              faceResult.message 1 (getAuthMethod isAPIKeyAuth)]
          if isAPIKeyAuth then
            { status := 400, body := ResponseBody.faceDetOrig origResp,
              users := users, credits := credits2, usage := usage1,
              upstreamCalled := true }
          else
            { status := 400,
              body := ResponseBody.err
                (NewAPIErrorWithOriginalResponse faceResult.message origResp),
              users := users, credits := credits2, usage := usage1,
              upstreamCalled := true }
        else
          match serviceDeductCredits credits
              { userID := user.userID, amount := 1 } with
          | (Except.error e, credits2) =>
            { status := 500,
              body := ResponseBody.err (NewAppError ErrInternalServer 500
                ("Face detection completed but failed to deduct credits: "
                  ++ appErrorString e) ""),
              users := users, credits := credits2,
              usage := [mkUsage user.userID email "face-detection" false
                ("face detection completed but failed to deduct credits: "
                  ++ appErrorString e) 0 (getAuthMethod isAPIKeyAuth)],
              upstreamCalled := true }
          | (Except.ok newBalance, credits2) =>
            { status := 200,
              body := if isAPIKeyAuth then ResponseBody.faceDetRaw faceResult
                else ResponseBody.faceDetEnvelope user.userID newBalance
                  faceResult,
              users := users, credits := credits2,
              usage := [mkUsage user.userID email "face-detection" true
                "" 1 (getAuthMethod isAPIKeyAuth)],
              upstreamCalled := true }

/-- Go `FaceDetectionHandler.ProcessFaceDetection` (the usage-tracked
handler): context email, body decode, validation, user resolution with
auto-provisioning, then `faceDetectionCore`.  `body = none` models a
JSON decode failure; `upstream` is the external API call outcome. -/
def ProcessFaceDetection (fm : FailureModel) (emailCtx : Option String)
    (isAPIKeyAuth : Bool) (body : Option FaceDetectionRequest)
    (users : List GoUser) (credits : List (String × Int))
    (upstream : Except String FaceDetectionResult) : HandlerOutcome :=
  match emailCtx with
  | none =>
    { status := 401,
      body := ResponseBody.err (NewAppError ErrUnauthorized 401
        "email not found in context" ""),
      users := users, credits := credits,
      usage := [mkUsage "unknown" "unknown" "face-detection" false
        "email not found in context" 0 (getAuthMethod isAPIKeyAuth)],
      upstreamCalled := false }
  | some email =>
    match body with
    | none =>
      let decodeErr := NewAppError ErrBadRequest 400 "invalid JSON format" ""
      { status := 400, body := ResponseBody.err decodeErr,
        users := users, credits := credits,
        usage := [mkUsage email email "face-detection" false
          ("request body parsing failed: " ++ appErrorString decodeErr) 0
          (getAuthMethod isAPIKeyAuth)],
        upstreamCalled := false }
    | some req =>
      match validateFaceDetectionRequest req with
      | some vmsg =>
        { status := 400,
          body := ResponseBody.err (NewAppError ErrValidation 400
            ("validation failed: " ++ vmsg) ""),
          users := users, credits := credits,
          usage := [mkUsage email email "face-detection" false
            ("validation failed: " ++ vmsg) 0
            (getAuthMethod isAPIKeyAuth)],
          upstreamCalled := false }
      | none =>
        match resolveUserByEmail fm users credits email with
        | (Except.error ce, users2, credits2) =>
          { status := 500,
            body := ResponseBody.err (NewAppError ErrInternalServer 500
              ("failed to auto-create user: " ++ appErrorString ce) ""),
            users := users2, credits := credits2,
            usage := [mkUsage email email "face-detection" false
              ("failed to auto-create user: " ++ appErrorString ce) 0
              (getAuthMethod isAPIKeyAuth)],
            upstreamCalled := false }
        | (Except.ok user, users2, credits2) =>
          faceDetectionCore isAPIKeyAuth email user users2 credits2 upstream

/-! ## Face verification handler (usage-tracked version) -/

/-- `ProcessFaceVerification` after the user is resolved: balance check
(cost 2), upstream call (whose failures arrive as `AppError`s from the
API service, possibly carrying the raw upstream response), then an
unconditional 2-credit settlement on any non-error upstream return. -/
def faceVerificationCore (isAPIKeyAuth : Bool) (email : String)
    (user : GoUser) (users : List GoUser)
    (credits : List (String × Int))
    (upstream : Except AppError FaceVerificationResult) :
    HandlerOutcome :=
  match GetByUserID credits user.userID with
  | Except.error e =>
    { status := e.statusCode, body := ResponseBody.err e,
      users := users, credits := credits,
      usage := [mkUsage user.userID email "face-verification" false
        ("failed to check balance: " ++ appErrorString e) 0
        (getAuthMethod isAPIKeyAuth)],
      upstreamCalled := false }
  | Except.ok balance =>
    if balance < 2 then
      { status := 400,
        body := ResponseBody.err (NewAppError ErrInsufficientCredits 400
          "insufficient credits for face verification operation (minimum 2 credits required)" ""),
        users := users, credits := credits,
        usage := [mkUsage user.userID email "face-verification" false
          "insufficient credits for face verification operation" 0
          (getAuthMethod isAPIKeyAuth)],
        upstreamCalled := false }
    else
      match upstream with
      | Except.error appErr =>
        let usage1 : List UsageRecord :=
          [mkUsage user.userID email "face-verification" false
            ("face verification operation failed: " ++ appErrorString appErr)
            0 (getAuthMethod isAPIKeyAuth)]
        match appErr.originalResponse with
        | some origResp =>
          if isAPIKeyAuth then
            { status := 400, body := ResponseBody.faceDetOrig origResp,
              users := users, credits := credits, usage := usage1,
              upstreamCalled := true }
          else
            { status := appErr.statusCode, body := ResponseBody.err appErr,
              users := users, credits := credits, usage := usage1,
              upstreamCalled := true }
        | none =>
          { status := appErr.statusCode, body := ResponseBody.err appErr,
            users := users, credits := credits, usage := usage1,
            upstreamCalled := true }
      | Except.ok faceResult =>
        match serviceDeductCredits credits
            { userID := user.userID, amount := 2 } with
        | (Except.error e, credits2) =>
          { status := 500,
            body := ResponseBody.err (NewAppError ErrInternalServer 500
              ("Face verification completed but failed to deduct credits: "
                ++ appErrorString e) ""),
            users := users, credits := credits2,
            usage := [mkUsage user.userID email "face-verification" false
              ("face verification completed but failed to deduct credits: "
                ++ appErrorString e) 0 (getAuthMethod isAPIKeyAuth)],
            upstreamCalled := true }
        | (Except.ok newBalance, credits2) =>
          { status := 200,
            body := if isAPIKeyAuth then ResponseBody.faceVerRaw faceResult
              else ResponseBody.faceVerEnvelope user.userID newBalance
                faceResult,
            users := users, credits := credits2,
            usage := [mkUsage user.userID email "face-verification" true
              "" 2 (getAuthMethod isAPIKeyAuth)],
            upstreamCalled := true }

/-- Go `FaceVerificationHandler.ProcessFaceVerification` (the
usage-tracked handler). -/
def ProcessFaceVerification (fm : FailureModel) (emailCtx : Option String)
    (isAPIKeyAuth : Bool) (body : Option FaceVerificationRequest)
    (users : List GoUser) (credits : List (String × Int))
    (upstream : Except AppError FaceVerificationResult) : HandlerOutcome :=
  match emailCtx with
  | none =>
    { status := 401,
      body := ResponseBody.err (NewAppError ErrUnauthorized 401
        "email not found in context" ""),
      users := users, credits := credits,
      usage := [mkUsage "unknown" "unknown" "face-verification" false
        "email not found in context" 0 (getAuthMethod isAPIKeyAuth)],
      upstreamCalled := false }
  | some email =>
    match body with
    | none =>
      let decodeErr := NewAppError ErrBadRequest 400 "invalid JSON format" ""
      { status := 400, body := ResponseBody.err decodeErr,
        users := users, credits := credits,
        usage := [mkUsage email email "face-verification" false
          ("request body parsing failed: " ++ appErrorString decodeErr) 0
          (getAuthMethod isAPIKeyAuth)],
        upstreamCalled := false }
    | some req =>
      match validateFaceVerificationRequest req with
      | some vmsg =>
        { status := 400,
          body := ResponseBody.err (NewAppError ErrValidation 400
            ("validation failed: " ++ vmsg) ""),
          users := users, credits := credits,
          usage := [mkUsage email email "face-verification" false
            ("validation failed: " ++ vmsg) 0
            (getAuthMethod isAPIKeyAuth)],
          upstreamCalled := false }
      | none =>
        match resolveUserByEmail fm users credits email with
        | (Except.error ce, users2, credits2) =>
          { status := 500,
            body := ResponseBody.err (NewAppError ErrInternalServer 500
              ("failed to auto-create user: " ++ appErrorString ce) ""),
            users := users2, credits := credits2,
            usage := [mkUsage email email "face-verification" false
              ("failed to auto-create user: " ++ appErrorString ce) 0
              (getAuthMethod isAPIKeyAuth)],
            upstreamCalled := false }
        | (Except.ok user, users2, credits2) =>
          faceVerificationCore isAPIKeyAuth email user users2 credits2
            upstream

/-! ## QR masking handler (no usage tracking in this handler) -/

/-- `ProcessQRMasking` after the user is resolved: requires a balance
of at least 2, yet settles a successful upstream call by deducting
exactly 1 credit. -/
def qrMaskingCore (isAPIKeyAuth : Bool) (user : GoUser)
    (users : List GoUser) (credits : List (String × Int))
    (upstream : Except String QRMaskingResult) : HandlerOutcome :=
  match GetByUserID credits user.userID with
  | Except.error e =>
    { status := e.statusCode, body := ResponseBody.err e,
      users := users, credits := credits, usage := [],
      upstreamCalled := false }
  | Except.ok balance =>
    if balance < 2 then
      { status := 400,
        body := ResponseBody.err (NewAppError ErrInsufficientCredits 400
          "insufficient credits for QR masking operation (minimum 2 credits required)" ""),
        users := users, credits := credits, usage := [],
        upstreamCalled := false }
    else
      match upstream with
      | Except.error errStr =>
        { status := 500,
          body := ResponseBody.err (NewAppError ErrInternalServer 500
            ("QR masking operation failed: " ++ errStr) ""),
          users := users, credits := credits, usage := [],
          upstreamCalled := true }
      | Except.ok qrResult =>
        if ¬ qrResult.success then
          { status := 400,
            body := ResponseBody.err (NewAPIError qrResult.message),
            users := users, credits := credits, usage := [],
            upstreamCalled := true }
        else
          match serviceDeductCredits credits
              { userID := user.userID, amount := 1 } with
          | (Except.error e, credits2) =>
            { status := 500,
              body := ResponseBody.err (NewAppError ErrInternalServer 500
                ("QR masking completed but failed to deduct credits: "
                  ++ appErrorString e) ""),
              users := users, credits := credits2, usage := [],
              upstreamCalled := true }
          | (Except.ok newBalance, credits2) =>
            { status := 200,
              body := if isAPIKeyAuth then ResponseBody.qrRaw qrResult
                else ResponseBody.qrEnvelope user.userID newBalance qrResult,
              users := users, credits := credits2, usage := [],
              upstreamCalled := true }

/-- Go `QRMaskingHandler.ProcessQRMasking`. -/
def ProcessQRMasking (fm : FailureModel) (emailCtx : Option String)
    (isAPIKeyAuth : Bool) (body : Option QRMaskingRequest)
    (users : List GoUser) (credits : List (String × Int))
    (upstream : Except String QRMaskingResult) : HandlerOutcome :=
  match emailCtx with
  | none =>
    { status := 401,
      body := ResponseBody.err (NewAppError ErrUnauthorized 401
        "email not found in context" ""),
      users := users, credits := credits, usage := [],
      upstreamCalled := false }
  | some email =>
    match body with
    | none =>
      { status := 400,
        body := ResponseBody.err (NewAppError ErrBadRequest 400
          "invalid JSON format" ""),
        users := users, credits := credits, usage := [],
        upstreamCalled := false }
    | some req =>
      match validateQRMaskingRequest req with
      | some vmsg =>
        { status := 400,
          body := ResponseBody.err (NewAppError ErrValidation 400
            ("validation failed: " ++ vmsg) ""),
          users := users, credits := credits, usage := [],
          upstreamCalled := false }
      | none =>
        match resolveUserByEmail fm users credits email with
        | (Except.error ce, users2, credits2) =>
          { status := 500,
            body := ResponseBody.err (NewAppError ErrInternalServer 500
              ("failed to auto-create user: " ++ appErrorString ce) ""),
            users := users2, credits := credits2, usage := [],
            upstreamCalled := false }
        | (Except.ok user, users2, credits2) =>
          qrMaskingCore isAPIKeyAuth user users2 credits2 upstream

/-! ## Sequential ledger runs (for the non-negativity invariant) -/

/-- One service-level ledger call: a debit
(`creditsService.DeductCredits`) or a credit
(`creditsService.AddCredits`). -/
inductive LedgerCall where
  | debit (userID : String) (amount : Int)
  | credit (userID : String) (amount : Int)
deriving Repr, DecidableEq

/-- Apply one service call, keeping only the resulting store. -/
def applyLedgerCall (db : List (String × Int)) : LedgerCall →
    List (String × Int)
  | LedgerCall.debit uid amount =>
    (serviceDeductCredits db { userID := uid, amount := amount }).2
  | LedgerCall.credit uid amount =>
    (serviceAddCredits db { userID := uid, amount := amount }).2

/-- Run a sequence of service-level ledger calls. -/
def runLedgerCalls (db : List (String × Int)) :
    List LedgerCall → List (String × Int)
  | [] => db
  | c :: rest => runLedgerCalls (applyLedgerCall db c) rest

/-! ## Interleaved debits (the time-of-check/time-of-use model)

`creditsRepository.DeductCredits` is a read (`GetByUserID`) followed by
a separate conditional write (`UpdateCredits` with `$inc`).  Each
in-flight debit of a fixed `amount` is therefore a two-step process:

* step 1 (the read): load the current stored balance into a local;
* step 2 (check + write): if the *local* copy is below `amount`, fail;
  otherwise apply the atomic `$inc` decrement to the store.

A schedule interleaves the steps of several such processes against one
account's balance. -/

/-- The control state of one in-flight `DeductCredits` call. -/
inductive DebitPhase where
  | toRead
  | toCheck (localBalance : Int)
  | finished (succeeded : Bool)
deriving Repr, DecidableEq

/-- The store balance plus every in-flight debit's control state. -/
structure ConcState where
  balance : Int
  procs : List DebitPhase
deriving Repr, DecidableEq

/-- Advance one process by one step. -/
def debitStep (amount : Int) (balance : Int) :
    DebitPhase → DebitPhase × Int
  | DebitPhase.toRead => (DebitPhase.toCheck balance, balance)
  | DebitPhase.toCheck localBalance =>
    if localBalance < amount then (DebitPhase.finished false, balance)
    else (DebitPhase.finished true, balance - amount)
  | DebitPhase.finished b => (DebitPhase.finished b, balance)

/-- Step the process at index `i` (out-of-range indices are no-ops). -/
def stepAt (amount : Int) (s : ConcState) (i : Nat) : ConcState :=
  match s.procs[i]? with
  | none => s
  | some ph =>
    match debitStep amount s.balance ph with
    | (ph2, bal2) => { balance := bal2, procs := s.procs.set i ph2 }

/-- Run a schedule (a list of process indices) of interleaved debits. -/
def runDebitSchedule (amount : Int) (sched : List Nat) (s : ConcState) :
    ConcState :=
  sched.foldl (stepAt amount) s

/-- How many in-flight debits have succeeded. -/
def countSuccesses (s : ConcState) : Nat :=
  (s.procs.filter (fun ph => ph = DebitPhase.finished true)).length

/-! ## Concrete sample data (used by the witness theorems) -/

def sampleUser : GoUser := { userID := "u1", email := "a@b.c" }

def sampleUsers : List GoUser := [sampleUser]

def sampleFDReq : FaceDetectionRequest :=
  { reqID := "r1", docBase64 := "0123456789" }

def sampleFDFail : FaceDetectionResult :=
  { reqID := "r1", success := false, status := "fail", data := [],
    message := "no face detected" }

def sampleFVReq : FaceVerificationRequest :=
  { reqID := "r1", docBase64_1 := "0123456789",
    docBase64_2 := "0123456789", docType := "face" }

def sampleFVOk : FaceVerificationResult :=
  { reqID := "r1", success := true, status := "ok", message := "" }

def sampleQRReq : QRMaskingRequest :=
  { reqID := "r1", base64Str := "0123456789" }

def sampleQROk : QRMaskingResult :=
  { reqID := "r1", success := true, status := "ok",
    maskedBase64 := "m", message := "" }

def sampleToken : CreditToken :=
  { token := "T", credits := 7, createdBy := "adm", expiresAt := 100,
    isUsed := false, usedBy := "" }

def sampleOldKey : APIKey :=
  { userID := "u1", email := "a@b.c", keyName := "old", keyHash := "h0",
    isActive := true }

def sampleKeyReq : CreateAPIKeyRequest := { keyName := "new key" }

/-- The failure model in which only the initial credits grant fails. -/
def failingGrant : FailureModel :=
  { userCreateFails := false, creditsCreateFails := true,
    userDeleteFails := false }

/-- The `document not detected` table entry (`ID_CROP_003`). -/
def docNotDetectedEntry : UserFriendlyError :=
  { userMessage := "ID document not found in image",
    technicalMessage := "Document not detected",
    suggestion := "Please ensure the entire ID document is visible in the image",
    errorCode := "ID_CROP_003" }

/-! ## Store lemmas -/

theorem findBal_incBal_self (db : List (String × Int)) (uid : String)
    (amount b : Int) (h : findBal db uid = some b) :
    findBal (incBal db uid amount) uid = some (b + amount) := by
  induction db with
  | nil => simp [findBal] at h
  | cons p rest ih =>
    by_cases hp : p.1 = uid
    · unfold findBal at h
      rw [if_pos hp] at h
      injection h with hb
      subst hb
      unfold incBal
      rw [if_pos hp]
      unfold findBal
      rw [if_pos hp]
    · unfold findBal at h
      rw [if_neg hp] at h
      unfold incBal
      rw [if_neg hp]
      unfold findBal
      rw [if_neg hp]
      exact ih h

theorem findBal_incBal_other (db : List (String × Int)) (uid v : String)
    (amount : Int) (h : ¬ v = uid) :
    findBal (incBal db uid amount) v = findBal db v := by
  induction db with
  | nil => rfl
  | cons p rest ih =>
    by_cases hp : p.1 = uid
    · unfold incBal
      rw [if_pos hp]
      unfold findBal
      have hv : ¬ p.1 = v := by
        intro hc
        rw [hp] at hc
        exact h hc.symm
      rw [if_neg hv, if_neg hv]
    · unfold incBal
      rw [if_neg hp]
      unfold findBal
      by_cases hv : p.1 = v
      · rw [if_pos hv, if_pos hv]
      · rw [if_neg hv, if_neg hv]
        exact ih

theorem findBal_append_right (db : List (String × Int)) (uid : String)
    (c : Int) (h : findBal db uid = none) :
    findBal (db ++ [(uid, c)]) uid = some c := by
  induction db with
  | nil => simp [findBal]
  | cons p rest ih =>
    unfold findBal at h
    rw [List.cons_append]
    by_cases hp : p.1 = uid
    · rw [if_pos hp] at h
      cases h
    · rw [if_neg hp] at h
      unfold findBal
      rw [if_neg hp]
      exact ih h

/-! ## C1: single sequential debit -/

theorem DeductCredits_run_insufficient (db : List (String × Int))
    (uid : String) (amount b : Int) (h : findBal db uid = some b)
    (hlt : b < amount) :
    DeductCredits db uid amount
      = (Except.error NewInsufficientCreditsError, db) := by
  simp [DeductCredits, GetByUserID, h, hlt]

theorem DeductCredits_run_ok (db : List (String × Int))
    (uid : String) (amount b : Int) (h : findBal db uid = some b)
    (hge : ¬ b < amount) :
    DeductCredits db uid amount
      = (Except.ok (), incBal db uid (-amount)) := by
  simp [DeductCredits, GetByUserID, UpdateCredits, h, hge]

/-- Claim C1: for an account that exists with balance `b`, a single
`creditsRepository.DeductCredits` call fails with `InsufficientCredits`
exactly when the requested amount exceeds `b`; on that failure the
stored balances are unchanged, and when the balance is sufficient the
stored balance becomes `b - amount`. -/
theorem C1_deduct_insufficient_iff (db : List (String × Int))
    (uid : String) (amount b : Int) (h : findBal db uid = some b) :
    ((DeductCredits db uid amount).1
        = Except.error NewInsufficientCreditsError ↔ b < amount)
    ∧ (b < amount → (DeductCredits db uid amount).2 = db)
    ∧ (amount ≤ b →
        (DeductCredits db uid amount).1 = Except.ok ()
        ∧ findBal (DeductCredits db uid amount).2 uid
            = some (b - amount)) := by
  by_cases hlt : b < amount
  · rw [DeductCredits_run_insufficient db uid amount b h hlt]
    exact ⟨⟨fun _ => hlt, fun _ => rfl⟩, fun _ => rfl,
      fun hle => absurd hlt (by omega)⟩
  · rw [DeductCredits_run_ok db uid amount b h hlt]
    refine ⟨⟨fun hc => (nomatch hc), fun hc => absurd hc hlt⟩,
      fun hc => absurd hc hlt, fun _ => ⟨rfl, ?_⟩⟩
    rw [findBal_incBal_self db uid (-amount) b h]
    exact congrArg some (by omega)

/-- Witness for C1: with balance 5, a debit of 7 fails with
`InsufficientCredits` and a debit of 3 leaves 2. -/
theorem C1_deduct_insufficient_iff_witness :
    (DeductCredits [("u", 5)] "u" 7).1
      = Except.error NewInsufficientCreditsError
    ∧ findBal (DeductCredits [("u", 5)] "u" 3).2 "u" = some 2 :=
  ⟨(C1_deduct_insufficient_iff [("u", 5)] "u" 7 5 rfl).1.mpr (by decide),
   ((C1_deduct_insufficient_iff [("u", 5)] "u" 3 5 rfl).2.2
     (by decide)).2⟩

/-! ## C2: non-negativity under sequential service calls -/

/-- Every stored balance is non-negative. -/
def allNonneg (db : List (String × Int)) : Prop :=
  ∀ uid b, findBal db uid = some b → 0 ≤ b

theorem allNonneg_of_forall_mem (db : List (String × Int))
    (h : ∀ p ∈ db, 0 ≤ p.2) : allNonneg db := by
  induction db with
  | nil => intro uid b hb; cases hb
  | cons p rest ih =>
    intro uid b hb
    unfold findBal at hb
    by_cases hp : p.1 = uid
    · rw [if_pos hp] at hb
      injection hb with hb
      exact hb ▸ h p (List.mem_cons_self p rest)
    · rw [if_neg hp] at hb
      exact ih (fun q hq => h q (List.mem_cons_of_mem p hq)) uid b hb

theorem UpdateCredits_preserves_nonneg (db : List (String × Int))
    (uid : String) (amount : Int) (hpos : 0 ≤ amount)
    (hinv : allNonneg db) :
    allNonneg (UpdateCredits db uid amount).2 := by
  unfold UpdateCredits
  cases hb : findBal db uid with
  | none => simpa [hb] using hinv
  | some b =>
    simp only [hb, Option.isSome_some, if_true]
    intro v c hv
    by_cases hvu : v = uid
    · subst hvu
      rw [findBal_incBal_self db v amount b hb] at hv
      injection hv with hv
      have := hinv v b hb
      omega
    · rw [findBal_incBal_other db uid v amount hvu] at hv
      exact hinv v c hv

theorem DeductCredits_preserves_nonneg (db : List (String × Int))
    (uid : String) (amount : Int) (hinv : allNonneg db) :
    allNonneg (DeductCredits db uid amount).2 := by
  unfold DeductCredits GetByUserID
  cases hb : findBal db uid with
  | none => exact hinv
  | some b =>
    by_cases hlt : b < amount
    · simp only [if_pos hlt]
      exact hinv
    · simp only [if_neg hlt]
      unfold UpdateCredits
      simp only [hb, Option.isSome_some, if_true]
      intro v c hv
      by_cases hvu : v = uid
      · subst hvu
        rw [findBal_incBal_self db v (-amount) b hb] at hv
        injection hv with hv
        have := hinv v b hb
        omega
      · rw [findBal_incBal_other db uid v (-amount) hvu] at hv
        exact hinv v c hv

theorem serviceDeductCredits_preserves_nonneg (db : List (String × Int))
    (req : CreditsAmountRequest) (hinv : allNonneg db) :
    allNonneg (serviceDeductCredits db req).2 := by
  unfold serviceDeductCredits
  cases hval : validateCreditsAmountRequest req with
  | some msg => exact hinv
  | none =>
    cases hget : GetByUserID db req.userID with
    | error e => exact hinv
    | ok current =>
      have hpres := DeductCredits_preserves_nonneg db req.userID req.amount hinv
      cases hd : DeductCredits db req.userID req.amount with
      | mk r db2 =>
        rw [hd] at hpres
        cases r with
        | error e => exact hpres
        | ok u => exact hpres

theorem serviceAddCredits_preserves_nonneg (db : List (String × Int))
    (req : CreditsAmountRequest) (hinv : allNonneg db) :
    allNonneg (serviceAddCredits db req).2 := by
  unfold serviceAddCredits
  cases hval : validateCreditsAmountRequest req with
  | some msg => exact hinv
  | none =>
    have hamt : 0 ≤ req.amount := by
      unfold validateCreditsAmountRequest at hval
      by_cases h1 : req.userID = ""
      · rw [if_pos h1] at hval
        cases hval
      · rw [if_neg h1] at hval
        by_cases h2 : req.amount ≤ 0
        · rw [if_pos h2] at hval
          cases hval
        · omega
    cases hget : GetByUserID db req.userID with
    | error e => exact hinv
    | ok current =>
      have hpres := UpdateCredits_preserves_nonneg db req.userID req.amount
        hamt hinv
      cases hu : UpdateCredits db req.userID req.amount with
      | mk r db2 =>
        rw [hu] at hpres
        cases r with
        | error e => exact hpres
        | ok u => exact hpres

theorem applyLedgerCall_preserves_nonneg (db : List (String × Int))
    (c : LedgerCall) (hinv : allNonneg db) :
    allNonneg (applyLedgerCall db c) := by
  cases c with
  | debit uid amount =>
    exact serviceDeductCredits_preserves_nonneg db
      { userID := uid, amount := amount } hinv
  | credit uid amount =>
    exact serviceAddCredits_preserves_nonneg db
      { userID := uid, amount := amount } hinv

/-- Claim C2: starting from a store whose balances are all
non-negative, any sequence of service-level debit
(`creditsService.DeductCredits`) and credit (`creditsService.AddCredits`
over `UpdateCredits`) calls, executed sequentially, leaves every
balance non-negative. -/
theorem C2_balance_never_negative (db : List (String × Int))
    (calls : List LedgerCall) (hinv : allNonneg db) :
    allNonneg (runLedgerCalls db calls) := by
  induction calls generalizing db with
  | nil => exact hinv
  | cons c rest ih =>
    exact ih (applyLedgerCall db c) (applyLedgerCall_preserves_nonneg db c hinv)

/-- Witness for C2: 5 credits, debit 3, credit 2, debit 10 (rejected),
debit 4: the final balance 0 is non-negative. -/
theorem C2_balance_never_negative_witness :
    (0 : Int) ≤ 0
    ∧ findBal (runLedgerCalls [("u", 5)]
        [LedgerCall.debit "u" 3, LedgerCall.credit "u" 2,
         LedgerCall.debit "u" 10, LedgerCall.debit "u" 4]) "u"
      = some 0 :=
  ⟨C2_balance_never_negative [("u", 5)]
      [LedgerCall.debit "u" 3, LedgerCall.credit "u" 2,
       LedgerCall.debit "u" 10, LedgerCall.debit "u" 4]
      (allNonneg_of_forall_mem _ (by decide)) "u" 0 (by decide),
   by decide⟩

/-! ## C3: the debit is a read-then-write pair, not atomic -/

/-- Claim C3 is false of the code (and the spec text mandates the
contrary, so the code is the slip): `creditsRepository.DeductCredits`
is a read (`GetByUserID`) followed by a separate conditional write, not
a single atomic conditional decrement.  Under the interleaving
`[0, 1, 0, 1]` of two concurrent unit debits against balance 1 (both
read the balance before either writes), both debits succeed — 2
successes where `floor(B/a) = 1/1 = 1` — and the account overdrafts
to `-1`. -/
theorem C3_read_then_write_overdrafts :
    runDebitSchedule 1 [0, 1, 0, 1]
        { balance := 1, procs := [DebitPhase.toRead, DebitPhase.toRead] }
      = { balance := -1,
          procs := [DebitPhase.finished true, DebitPhase.finished true] }
    ∧ countSuccesses (runDebitSchedule 1 [0, 1, 0, 1]
        { balance := 1, procs := [DebitPhase.toRead, DebitPhase.toRead] })
      = 2
    ∧ ¬ ((2 : Nat) = 1 / 1)
    ∧ (runDebitSchedule 1 [0, 1, 0, 1]
        { balance := 1,
          procs := [DebitPhase.toRead, DebitPhase.toRead] }).balance < 0 := by
  refine ⟨by decide, by decide, by decide, by decide⟩


/-! ## Service-level run lemmas for the handler proofs -/

theorem serviceDeductCredits_run_ok (db : List (String × Int))
    (uid : String) (amount b : Int) (h : findBal db uid = some b)
    (huid : ¬ uid = "") (hamt : ¬ amount ≤ 0) (hge : ¬ b < amount) :
    serviceDeductCredits db { userID := uid, amount := amount }
      = (Except.ok (b - amount), incBal db uid (-amount)) := by
  simp [serviceDeductCredits, validateCreditsAmountRequest, GetByUserID,
    DeductCredits, UpdateCredits, h, huid, hamt, hge]

/-! ## C4: face detection, semantic upstream failure, charge-on-response -/

/-- Claim C4: with balance 5 and a structured upstream response
`success=false`, `error_message="no face detected"`, the usage-tracked
face-detection handler (bearer-token caller) debits 1 credit (balance
becomes 4), emits exactly one usage record with `creditsCharged=1`,
`success=true`, `errorMsg="no face detected"`, and answers 400 with the
translated `FACE_DET_001` error. -/
theorem C4_face_detection_charges_on_semantic_failure
    (fm : FailureModel) (users : List GoUser)
    (db : List (String × Int)) (user : GoUser) (email : String)
    (req : FaceDetectionRequest) (fr : FaceDetectionResult)
    (hu : findUserByEmail users email = some user)
    (huid : ¬ user.userID = "")
    (hb : findBal db user.userID = some 5)
    (hreq : validateFaceDetectionRequest req = none)
    (hfail : fr.success = false)
    (hmsg : fr.message = "no face detected") :
    findBal (ProcessFaceDetection fm (some email) false (some req)
        users db (Except.ok fr)).credits user.userID = some 4
    ∧ (ProcessFaceDetection fm (some email) false (some req)
        users db (Except.ok fr)).status = 400
    ∧ (∃ e, (ProcessFaceDetection fm (some email) false (some req)
          users db (Except.ok fr)).body = ResponseBody.err e
        ∧ e.errorCode = "FACE_DET_001"
        ∧ e.message = "No face found in the image"
        ∧ e.statusCode = 400)
    ∧ (ProcessFaceDetection fm (some email) false (some req)
        users db (Except.ok fr)).usage
      = [mkUsage user.userID email "face-detection" true
          "no face detected" 1 "bearer_token"] := by
  have hrun := serviceDeductCredits_run_ok db user.userID 1 5 hb huid
    (by omega) (by omega)
  have hout : ProcessFaceDetection fm (some email) false (some req)
      users db (Except.ok fr)
      = faceDetectionCore false email user users db (Except.ok fr) := by
    simp [ProcessFaceDetection, hreq, resolveUserByEmail, hu]
  rw [hout]
  have hcore : faceDetectionCore false email user users db (Except.ok fr)
      = { status := 400,
          body := ResponseBody.err (NewAPIErrorWithOriginalResponse
            fr.message
            { reqID := fr.reqID, success := fr.success,
              errorMessage := fr.message, data := fr.data }),
          users := users, credits := incBal db user.userID (-1),
          usage := [mkUsage user.userID email "face-detection" true
            fr.message 1 "bearer_token"],
          upstreamCalled := true } := by
    simp [faceDetectionCore, GetByUserID, hb, hfail, hrun, getAuthMethod]
  rw [hcore]
  refine ⟨?_, rfl, ⟨NewAPIErrorWithOriginalResponse fr.message
    { reqID := fr.reqID, success := fr.success,
      errorMessage := fr.message, data := fr.data }, rfl, ?_, ?_, ?_⟩, ?_⟩
  · rw [findBal_incBal_self db user.userID (-1) 5 hb]
    decide
  · rw [hmsg]
    show (MapError "no face detected").errorCode = "FACE_DET_001"
    decide
  · rw [hmsg]
    show (MapError "no face detected").userMessage
      = "No face found in the image"
    decide
  · rfl
  · rw [hmsg]

/-- Witness for C4: a concrete user, balance 5, request, and upstream
semantic failure. -/
theorem C4_face_detection_charges_on_semantic_failure_witness :
    findBal (ProcessFaceDetection noFailures (some "a@b.c") false
        (some sampleFDReq) sampleUsers [("u1", 5)]
        (Except.ok sampleFDFail)).credits "u1" = some 4
    ∧ (ProcessFaceDetection noFailures (some "a@b.c") false
        (some sampleFDReq) sampleUsers [("u1", 5)]
        (Except.ok sampleFDFail)).usage
      = [mkUsage "u1" "a@b.c" "face-detection" true
          "no face detected" 1 "bearer_token"] := by
  have h := C4_face_detection_charges_on_semantic_failure noFailures
    sampleUsers [("u1", 5)] sampleUser "a@b.c" sampleFDReq sampleFDFail
    rfl (by decide) rfl (by decide) rfl rfl
  exact ⟨h.1, h.2.2.2⟩

/-! ## C5: insufficient balance short-circuits before upstream -/

/-- Claim C5: when the account balance is below the face-verification
cost of 2, the usage-tracked handler answers 400 `InsufficientCredits`
without invoking the upstream operation, leaves the balances unchanged,
and emits exactly one usage record with `creditsCharged=0`,
`success=false`. -/
theorem C5_insufficient_credits_short_circuits
    (fm : FailureModel) (users : List GoUser)
    (db : List (String × Int)) (user : GoUser) (email : String)
    (isAPIKeyAuth : Bool) (req : FaceVerificationRequest) (b : Int)
    (upstream : Except AppError FaceVerificationResult)
    (hu : findUserByEmail users email = some user)
    (hb : findBal db user.userID = some b)
    (hreq : validateFaceVerificationRequest req = none)
    (hlow : b < 2) :
    (ProcessFaceVerification fm (some email) isAPIKeyAuth (some req)
        users db upstream).status = 400
    ∧ (ProcessFaceVerification fm (some email) isAPIKeyAuth (some req)
        users db upstream).body
      = ResponseBody.err (NewAppError ErrInsufficientCredits 400
          "insufficient credits for face verification operation (minimum 2 credits required)" "")
    ∧ (ProcessFaceVerification fm (some email) isAPIKeyAuth (some req)
        users db upstream).credits = db
    ∧ (ProcessFaceVerification fm (some email) isAPIKeyAuth (some req)
        users db upstream).users = users
    ∧ (ProcessFaceVerification fm (some email) isAPIKeyAuth (some req)
        users db upstream).usage
      = [mkUsage user.userID email "face-verification" false
          "insufficient credits for face verification operation" 0
          (getAuthMethod isAPIKeyAuth)]
    ∧ (ProcessFaceVerification fm (some email) isAPIKeyAuth (some req)
        users db upstream).upstreamCalled = false := by
  have hout : ProcessFaceVerification fm (some email) isAPIKeyAuth
      (some req) users db upstream
      = faceVerificationCore isAPIKeyAuth email user users db upstream := by
    simp [ProcessFaceVerification, hreq, resolveUserByEmail, hu]
  rw [hout]
  have hcore : faceVerificationCore isAPIKeyAuth email user users db
      upstream
      = { status := 400,
          body := ResponseBody.err (NewAppError ErrInsufficientCredits 400
            "insufficient credits for face verification operation (minimum 2 credits required)" ""),
          users := users, credits := db,
          usage := [mkUsage user.userID email "face-verification" false
            "insufficient credits for face verification operation" 0
            (getAuthMethod isAPIKeyAuth)],
          upstreamCalled := false } := by
    simp [faceVerificationCore, GetByUserID, hb, hlow]
  rw [hcore]
  exact ⟨rfl, rfl, rfl, rfl, rfl, rfl⟩

/-- Witness for C5: balance 1 against cost 2. -/
theorem C5_insufficient_credits_short_circuits_witness :
    (ProcessFaceVerification noFailures (some "a@b.c") false
        (some sampleFVReq) sampleUsers [("u1", 1)]
        (Except.ok sampleFVOk)).status = 400
    ∧ (ProcessFaceVerification noFailures (some "a@b.c") false
        (some sampleFVReq) sampleUsers [("u1", 1)]
        (Except.ok sampleFVOk)).credits = [("u1", 1)]
    ∧ (ProcessFaceVerification noFailures (some "a@b.c") false
        (some sampleFVReq) sampleUsers [("u1", 1)]
        (Except.ok sampleFVOk)).upstreamCalled = false := by
  have h := C5_insufficient_credits_short_circuits noFailures
    sampleUsers [("u1", 1)] sampleUser "a@b.c" false sampleFVReq 1
    (Except.ok sampleFVOk) rfl rfl (by decide) (by decide)
  exact ⟨h.1, h.2.2.1, h.2.2.2.2.2⟩

/-! ## C10: QR masking requires 2 credits but charges 1 -/

/-- Claim C10: the QR-masking handler rejects any request whose balance
is below 2 with `InsufficientCredits` (so balance exactly 1 is rejected
even though the actual charge would be 1), yet a successful invocation
debits exactly 1 credit, leaving balance `b - 1`. -/
theorem C10_qr_masking_checks_2_charges_1
    (fm : FailureModel) (users : List GoUser)
    (db : List (String × Int)) (user : GoUser) (email : String)
    (isAPIKeyAuth : Bool) (req : QRMaskingRequest) (b : Int)
    (qr : QRMaskingResult)
    (upstream : Except String QRMaskingResult)
    (hu : findUserByEmail users email = some user)
    (huid : ¬ user.userID = "")
    (hb : findBal db user.userID = some b)
    (hreq : validateQRMaskingRequest req = none)
    (hqr : qr.success = true) :
    (b < 2 →
      (ProcessQRMasking fm (some email) isAPIKeyAuth (some req)
          users db upstream).status = 400
      ∧ (ProcessQRMasking fm (some email) isAPIKeyAuth (some req)
          users db upstream).body
        = ResponseBody.err (NewAppError ErrInsufficientCredits 400
            "insufficient credits for QR masking operation (minimum 2 credits required)" "")
      ∧ (ProcessQRMasking fm (some email) isAPIKeyAuth (some req)
          users db upstream).credits = db
      ∧ (ProcessQRMasking fm (some email) isAPIKeyAuth (some req)
          users db upstream).upstreamCalled = false)
    ∧ (2 ≤ b →
      (ProcessQRMasking fm (some email) isAPIKeyAuth (some req)
          users db (Except.ok qr)).status = 200
      ∧ findBal (ProcessQRMasking fm (some email) isAPIKeyAuth (some req)
          users db (Except.ok qr)).credits user.userID = some (b - 1)) := by
  have hout : ∀ up, ProcessQRMasking fm (some email) isAPIKeyAuth
      (some req) users db up
      = qrMaskingCore isAPIKeyAuth user users db up := by
    intro up
    simp [ProcessQRMasking, hreq, resolveUserByEmail, hu]
  constructor
  · intro hlow
    rw [hout upstream]
    have hcore : qrMaskingCore isAPIKeyAuth user users db upstream
        = { status := 400,
            body := ResponseBody.err (NewAppError ErrInsufficientCredits
              400
              "insufficient credits for QR masking operation (minimum 2 credits required)" ""),
            users := users, credits := db, usage := [],
            upstreamCalled := false } := by
      simp [qrMaskingCore, GetByUserID, hb, hlow]
    rw [hcore]
    exact ⟨rfl, rfl, rfl, rfl⟩
  · intro hge
    rw [hout (Except.ok qr)]
    have hnl : ¬ b < 2 := by omega
    have hrun := serviceDeductCredits_run_ok db user.userID 1 b hb huid
      (by omega) (by omega)
    have hcore : qrMaskingCore isAPIKeyAuth user users db (Except.ok qr)
        = { status := 200,
            body := if isAPIKeyAuth then ResponseBody.qrRaw qr
              else ResponseBody.qrEnvelope user.userID (b - 1) qr,
            users := users, credits := incBal db user.userID (-1),
            usage := [], upstreamCalled := true } := by
      simp [qrMaskingCore, GetByUserID, hb, hnl, hqr, hrun]
    rw [hcore]
    refine ⟨rfl, ?_⟩
    rw [findBal_incBal_self db user.userID (-1) b hb]
    exact congrArg some (by omega)

/-- Witness for C10: balance 1 is rejected, balance 2 succeeds and
leaves 1. -/
theorem C10_qr_masking_checks_2_charges_1_witness :
    (ProcessQRMasking noFailures (some "a@b.c") false
        (some sampleQRReq) sampleUsers [("u1", 1)]
        (Except.ok sampleQROk)).status = 400
    ∧ (ProcessQRMasking noFailures (some "a@b.c") false
        (some sampleQRReq) sampleUsers [("u1", 2)]
        (Except.ok sampleQROk)).status = 200
    ∧ findBal (ProcessQRMasking noFailures (some "a@b.c") false
        (some sampleQRReq) sampleUsers [("u1", 2)]
        (Except.ok sampleQROk)).credits "u1" = some 1 := by
  have h1 := C10_qr_masking_checks_2_charges_1 noFailures
    sampleUsers [("u1", 1)] sampleUser "a@b.c" false sampleQRReq 1
    sampleQROk (Except.ok sampleQROk)
    rfl (by decide) rfl (by decide) rfl
  have h2 := C10_qr_masking_checks_2_charges_1 noFailures
    sampleUsers [("u1", 2)] sampleUser "a@b.c" false sampleQRReq 2
    sampleQROk (Except.ok sampleQROk)
    rfl (by decide) rfl (by decide) rfl
  exact ⟨(h1.1 (by decide)).1, (h2.2 (by decide)).1,
    (h2.2 (by decide)).2⟩

/-! ## C6: a credit token redeems exactly once -/

theorem MarkAsUsed_found (tokens : List CreditToken) (code uid : String)
    (t : CreditToken) (h : findToken tokens code = some t) :
    ∃ tokens2, MarkAsUsed tokens code uid = (Except.ok (), tokens2)
      ∧ findToken tokens2 code
        = some { t with isUsed := true, usedBy := uid } := by
  induction tokens with
  | nil => cases h
  | cons t0 rest ih =>
    by_cases h0 : t0.token = code
    · unfold findToken at h
      rw [if_pos h0] at h
      injection h with h
      subst h
      refine ⟨{ t0 with isUsed := true, usedBy := uid } :: rest, ?_, ?_⟩
      · unfold MarkAsUsed
        rw [if_pos h0]
      · unfold findToken
        rw [if_pos h0]
    · unfold findToken at h
      rw [if_neg h0] at h
      obtain ⟨rest2, hmk, hfind⟩ := ih h
      refine ⟨t0 :: rest2, ?_, ?_⟩
      · unfold MarkAsUsed
        rw [if_neg h0, hmk]
      · unfold findToken
        rw [if_neg h0]
        exact hfind

theorem RedeemToken_used_rejected (now : Int)
    (tokens : List CreditToken) (creditsDb : List (String × Int))
    (code uid : String) (t : CreditToken)
    (hcode : ¬ code = "") (ht : findToken tokens code = some t)
    (hused : t.isUsed = true) :
    RedeemToken now tokens creditsDb { token := code } uid
      = (Except.error (NewAppError ErrBadRequest 400
          "token has already been used" ""), tokens, creditsDb) := by
  simp [RedeemToken, hcode, ht, hused]

/-- Claim C6: redeeming an unused, unexpired token credits the
redeemer by the token value and flips `isUsed`; an immediate second
redemption of the same code fails with "token has already been used"
and changes nothing, so the balance rises by `creditsValue` exactly
once across both attempts. -/
theorem C6_token_redeems_exactly_once (now : Int)
    (tokens : List CreditToken) (creditsDb : List (String × Int))
    (code uid : String) (t : CreditToken) (b : Int)
    (hcode : ¬ code = "")
    (ht : findToken tokens code = some t)
    (hunused : t.isUsed = false)
    (hexp : ¬ tokenIsExpired now t)
    (hb : findBal creditsDb uid = some b) :
    ∃ tokens2,
      RedeemToken now tokens creditsDb { token := code } uid
        = (Except.ok { credits := t.credits,
                       remainingCredits := b + t.credits },
           tokens2, incBal creditsDb uid t.credits)
      ∧ findToken tokens2 code
        = some { t with isUsed := true, usedBy := uid }
      ∧ findBal (incBal creditsDb uid t.credits) uid
        = some (b + t.credits)
      ∧ RedeemToken now tokens2 (incBal creditsDb uid t.credits)
          { token := code } uid
        = (Except.error (NewAppError ErrBadRequest 400
            "token has already been used" ""),
           tokens2, incBal creditsDb uid t.credits) := by
  obtain ⟨tokens2, hmk, hfind⟩ := MarkAsUsed_found tokens code uid t ht
  have hbal2 := findBal_incBal_self creditsDb uid t.credits b hb
  refine ⟨tokens2, ?_, hfind, hbal2, ?_⟩
  · simp [RedeemToken, hcode, ht, hunused, hexp, UpdateCredits,
      GetByUserID, hb, hmk, hbal2]
  · exact RedeemToken_used_rejected now tokens2
      (incBal creditsDb uid t.credits) code uid
      { t with isUsed := true, usedBy := uid } hcode hfind rfl

/-- Witness for C6: token worth 7, balance 5: first redemption yields
12, second is rejected. -/
theorem C6_token_redeems_exactly_once_witness :
    (RedeemToken 0 [sampleToken] [("u1", 5)] { token := "T" } "u1").1
      = Except.ok { credits := 7, remainingCredits := 12 }
    ∧ findBal
        (RedeemToken 0 [sampleToken] [("u1", 5)]
          { token := "T" } "u1").2.2 "u1" = some 12
    ∧ (RedeemToken 0
        (RedeemToken 0 [sampleToken] [("u1", 5)] { token := "T" } "u1").2.1
        (RedeemToken 0 [sampleToken] [("u1", 5)] { token := "T" } "u1").2.2
        { token := "T" } "u1").1
      = Except.error (NewAppError ErrBadRequest 400
          "token has already been used" "") := by
  obtain ⟨tokens2, h1, h2, h3, h4⟩ :=
    C6_token_redeems_exactly_once 0 [sampleToken] [("u1", 5)] "T" "u1"
      sampleToken 5 (by decide) rfl rfl (by decide) rfl
  rw [h1]
  exact ⟨rfl, rfl, by rw [h4]⟩

/-! ## C7: creating an API key leaves exactly one active key -/

theorem DeleteByUserID_filter_self (keys : List APIKey) (uid : String) :
    (DeleteByUserID keys uid).filter (fun k => k.userID = uid) = [] := by
  induction keys with
  | nil => rfl
  | cons k rest ih =>
    by_cases hk : k.userID = uid
    · simpa [DeleteByUserID, List.filter, hk] using ih
    · simpa [DeleteByUserID, List.filter, hk] using ih

/-- Claim C7: a successful `CreateAPIKey` first deletes every existing
key of the account and then inserts one new active key, leaving
exactly one key (the new, active one) for that account. -/
theorem C7_create_api_key_single_active (users : List GoUser)
    (keys : List APIKey) (uid email : String)
    (req : CreateAPIKeyRequest) (newHash : String) (user : GoUser)
    (hu : findUserByID users uid = some user)
    (hreq : validateCreateAPIKeyRequest req = none) :
    ∃ k, (CreateAPIKey users keys uid email req newHash).1 = Except.ok k
      ∧ k.isActive = true
      ∧ k.userID = uid
      ∧ (CreateAPIKey users keys uid email req newHash).2.filter
          (fun x => x.userID = uid) = [k] := by
  refine ⟨{ userID := uid, email := email,
            keyName := goTrimSpace req.keyName, keyHash := newHash,
            isActive := true }, ?_, rfl, rfl, ?_⟩
  · simp [CreateAPIKey, hreq, hu]
  · have hrun : (CreateAPIKey users keys uid email req newHash).2
        = DeleteByUserID keys uid
          ++ [{ userID := uid, email := email,
                keyName := goTrimSpace req.keyName, keyHash := newHash,
                isActive := true }] := by
      simp [CreateAPIKey, hreq, hu]
    rw [hrun, List.filter_append, DeleteByUserID_filter_self]
    simp

/-- Witness for C7: a user with one pre-existing key ends up with
exactly one key, the new active one. -/
theorem C7_create_api_key_single_active_witness :
    ∃ k, (CreateAPIKey sampleUsers [sampleOldKey] "u1" "a@b.c"
        sampleKeyReq "h1").1 = Except.ok k
      ∧ k.isActive = true
      ∧ (CreateAPIKey sampleUsers [sampleOldKey] "u1" "a@b.c"
          sampleKeyReq "h1").2.filter (fun x => x.userID = "u1") = [k] := by
  obtain ⟨k, h1, h2, h3, h4⟩ := C7_create_api_key_single_active
    sampleUsers [sampleOldKey] "u1" "a@b.c" sampleKeyReq "h1"
    sampleUser rfl (by decide)
  exact ⟨k, h1, h2, h4⟩

/-! ## C8: the error translator -/

theorem leadsList_refl (l : List Char) : leadsList l l = true := by
  induction l with
  | nil => rfl
  | cons a as ih => simp [leadsList, ih]

theorem goContains_self (s : String) : goContains s s = true := by
  unfold goContains
  cases h : s.toList with
  | nil => rfl
  | cons c rest =>
    unfold occursIn
    simp [leadsList_refl]

theorem lookupExact_of_mem (l : List (String × UserFriendlyError))
    (hnd : (l.map Prod.fst).Nodup) (s : String) (e : UserFriendlyError)
    (h : (s, e) ∈ l) : lookupExact l s = some e := by
  induction l with
  | nil => cases h
  | cons p rest ih =>
    obtain ⟨k, v⟩ := p
    rw [List.mem_cons] at h
    rw [List.map_cons, List.nodup_cons] at hnd
    cases h with
    | inl heq =>
      injection heq with h1 h2
      unfold lookupExact
      rw [if_pos h1.symm, h2]
    | inr hmem =>
      unfold lookupExact
      by_cases hk : k = s
      · subst hk
        exact absurd (List.mem_map.mpr ⟨(k, e), hmem, rfl⟩) hnd.1
      · rw [if_neg hk]
        exact ih hnd.2 hmem

theorem lookupExact_eq_none (l : List (String × UserFriendlyError))
    (s : String) (h : ∀ e, ¬ (s, e) ∈ l) : lookupExact l s = none := by
  induction l with
  | nil => rfl
  | cons p rest ih =>
    obtain ⟨k, v⟩ := p
    unfold lookupExact
    by_cases hk : k = s
    · subst hk
      exact absurd (List.mem_cons_self _ _) (h v)
    · rw [if_neg hk]
      exact ih (fun e hme => h e (List.mem_cons_of_mem _ hme))

theorem scanContained_mem (l : List (String × UserFriendlyError))
    (s : String) (e : UserFriendlyError)
    (h : scanContained l s = some e) :
    ∃ k, (k, e) ∈ l ∧ goContains s k = true := by
  induction l with
  | nil => cases h
  | cons p rest ih =>
    obtain ⟨k, v⟩ := p
    unfold scanContained at h
    by_cases hc : goContains s k = true
    · simp only [hc, if_true] at h
      injection h with h
      subst h
      exact ⟨k, List.mem_cons_self _ _, hc⟩
    · simp only [hc, if_false] at h
      obtain ⟨k2, hm, hc2⟩ := ih h
      exact ⟨k2, List.mem_cons_of_mem _ hm, hc2⟩

theorem scanContained_isSome (l : List (String × UserFriendlyError))
    (s k : String) (e : UserFriendlyError) (hm : (k, e) ∈ l)
    (hc : goContains s k = true) :
    ∃ e2, scanContained l s = some e2 := by
  induction l with
  | nil => cases hm
  | cons p rest ih =>
    obtain ⟨k0, v0⟩ := p
    unfold scanContained
    by_cases hc0 : goContains s k0 = true
    · exact ⟨v0, by simp [hc0]⟩
    · rw [List.mem_cons] at hm
      simp only [hc0, if_false]
      cases hm with
      | inl heq =>
        injection heq with h1 h2
        subst h1
        exact absurd hc hc0
      | inr hmem =>
        exact ih hmem

theorem scanContained_eq_none (l : List (String × UserFriendlyError))
    (s : String) (h : ∀ k e, (k, e) ∈ l → ¬ (goContains s k = true)) :
    scanContained l s = none := by
  induction l with
  | nil => rfl
  | cons p rest ih =>
    obtain ⟨k, v⟩ := p
    unfold scanContained
    by_cases hc : goContains s k = true
    · exact absurd hc (h k v (List.mem_cons_self _ _))
    · simp only [hc, if_false]
      exact ih (fun k2 e2 hm => h k2 e2 (List.mem_cons_of_mem _ hm))

/-- Counterexample for C8 as stated: `translate("zzz")` does reach the
fallback (code `GEN_UNKNOWN`, user message "Processing failed") but its
suggestion is not the claimed fixed string "Try again or contact
support". -/
theorem C8_claim_fallback_counterexample :
    (MapError "zzz").userMessage = "Processing failed"
    ∧ (MapError "zzz").errorCode = "GEN_UNKNOWN"
    ∧ ¬ ((MapError "zzz").suggestion = "Try again or contact support")
    ∧ (MapError "zzz").suggestion
      = "Please try again with a different image or contact support if the issue persists"
    ∧ (MapError "zzz").technicalMessage = "zzz" := by
  refine ⟨by decide, by decide, by decide, by decide, by decide⟩

/-- Claim C8 (amended): `MapError` lower-cases and trims its input;
an exact table-key match returns that entry; otherwise, if some table
key is contained in the input, the result is the entry of some
contained key; otherwise the fallback is
`{"Processing failed", input echoed as the technical message,
"Please try again with a different image or contact support if the
issue persists", GEN_UNKNOWN}`.  In particular
`translate("Document NOT Detected")` equals
`translate("document not detected")`. -/
theorem C8_error_translator (s : String) :
    (∀ e, (goToLower (goTrimSpace s), e) ∈ errorMappings →
        MapError s = e)
    ∧ ((∀ e, ¬ ((goToLower (goTrimSpace s), e) ∈ errorMappings)) →
        (∃ k e, (k, e) ∈ errorMappings
          ∧ goContains (goToLower (goTrimSpace s)) k = true) →
        ∃ k e, (k, e) ∈ errorMappings
          ∧ goContains (goToLower (goTrimSpace s)) k = true
          ∧ MapError s = e)
    ∧ ((∀ k e, (k, e) ∈ errorMappings →
          ¬ (goContains (goToLower (goTrimSpace s)) k = true)) →
        MapError s = fallbackError s)
    ∧ MapError "Document NOT Detected"
      = MapError "document not detected" := by
  refine ⟨?_, ?_, ?_, by decide⟩
  · intro e hm
    have hl := lookupExact_of_mem errorMappings (by decide) _ e hm
    simp [MapError, hl]
  · intro hno hex
    have hnone := lookupExact_eq_none errorMappings _ hno
    obtain ⟨k, e, hm, hc⟩ := hex
    obtain ⟨e2, hsc⟩ := scanContained_isSome errorMappings _ k e hm hc
    obtain ⟨k2, hm2, hc2⟩ := scanContained_mem errorMappings _ e2 hsc
    exact ⟨k2, e2, hm2, hc2, by simp [MapError, hnone, hsc]⟩
  · intro hall
    have hno : ∀ e, ¬ ((goToLower (goTrimSpace s), e) ∈ errorMappings) :=
      fun e hm => absurd (goContains_self _) (hall _ e hm)
    have hnone := lookupExact_eq_none errorMappings _ hno
    have hscnone := scanContained_eq_none errorMappings _ hall
    simp [MapError, hnone, hscnone]

/-- Witness for C8: the exact-match clause at
"Document NOT Detected" yields the `ID_CROP_003` entry. -/
theorem C8_error_translator_witness :
    MapError "Document NOT Detected" = docNotDetectedEntry :=
  (C8_error_translator "Document NOT Detected").1 docNotDetectedEntry
    (by decide)

/-! ## C9: auto-provisioning grants 10 credits or rolls back -/

theorem deleteFirstUser_append (users : List GoUser) (u : GoUser)
    (h : findUserByID users u.userID = none) :
    deleteFirstUser (users ++ [u]) u.userID = users := by
  induction users with
  | nil => simp [deleteFirstUser]
  | cons v rest ih =>
    unfold findUserByID at h
    by_cases hv : v.userID = u.userID
    · rw [if_pos hv] at h
      cases h
    · rw [if_neg hv] at h
      rw [List.cons_append]
      unfold deleteFirstUser
      rw [if_neg hv, ih h]

/-- Claim C9: user creation and the initial 10-credit grant are
attempted as a unit, in `RegisterUser` and in `GetOrCreateUser`: when
the grant succeeds the new account has balance exactly 10; when the
grant fails, the just-created user record is deleted (best-effort) and
an error is returned, leaving the stores as before. -/
theorem C9_auto_provision_grants_10_or_rolls_back
    (fm : FailureModel) (users : List GoUser)
    (credits : List (String × Int)) (req : RegisterUserRequest)
    (email : String)
    (hval : validateRegisterUserRequest req = none)
    (habs : findUserByID users req.userID = none)
    (hbal : findBal credits req.userID = none)
    (hemail : findUserByEmail users email = none)
    (hid : findUserByID users email = none)
    (hbalE : findBal credits email = none)
    (hucf : fm.userCreateFails = false) :
    (fm.creditsCreateFails = false →
      ((RegisterUser fm users credits req).1
          = Except.ok ({ userID := req.userID, email := req.email }, 10)
        ∧ findBal (RegisterUser fm users credits req).2.2 req.userID
            = some 10)
      ∧ ((GetOrCreateUser fm users credits email).1
          = Except.ok { userID := email, email := email }
        ∧ findBal (GetOrCreateUser fm users credits email).2.2 email
            = some 10))
    ∧ (fm.creditsCreateFails = true → fm.userDeleteFails = false →
      ((RegisterUser fm users credits req).1 = Except.error dbError
        ∧ (RegisterUser fm users credits req).2.1 = users
        ∧ (RegisterUser fm users credits req).2.2 = credits)
      ∧ ((GetOrCreateUser fm users credits email).1 = Except.error dbError
        ∧ (GetOrCreateUser fm users credits email).2.1 = users
        ∧ (GetOrCreateUser fm users credits email).2.2 = credits)) := by
  constructor
  · intro hccf
    have hreg : RegisterUser fm users credits req
        = (Except.ok ({ userID := req.userID, email := req.email }, 10),
           users ++ [{ userID := req.userID, email := req.email }],
           credits ++ [(req.userID, 10)]) := by
      simp [RegisterUser, hval, habs, hucf, hccf]
    have hgoc : GetOrCreateUser fm users credits email
        = (Except.ok { userID := email, email := email },
           users ++ [{ userID := email, email := email }],
           credits ++ [(email, 10)]) := by
      simp [GetOrCreateUser, hemail, hucf, hccf]
    rw [hreg, hgoc]
    exact ⟨⟨rfl, findBal_append_right credits req.userID 10 hbal⟩,
      rfl, findBal_append_right credits email 10 hbalE⟩
  · intro hccf hudf
    have hdelR := deleteFirstUser_append users
      { userID := req.userID, email := req.email } habs
    have hdelG := deleteFirstUser_append users
      { userID := email, email := email } hid
    have hreg : RegisterUser fm users credits req
        = (Except.error dbError, users, credits) := by
      simp [RegisterUser, hval, habs, hucf, hccf, hudf, hdelR]
    have hgoc : GetOrCreateUser fm users credits email
        = (Except.error dbError, users, credits) := by
      simp [GetOrCreateUser, hemail, hucf, hccf, hudf, hdelG]
    rw [hreg, hgoc]
    exact ⟨⟨rfl, rfl, rfl⟩, rfl, rfl, rfl⟩

/-- Witness for C9: registering a fresh account grants exactly 10;
with a failing grant, the stores are left untouched and an error is
returned. -/
theorem C9_auto_provision_grants_10_or_rolls_back_witness :
    findBal (RegisterUser noFailures [] []
        { userID := "a@b.c", email := "a@b.c" }).2.2 "a@b.c" = some 10
    ∧ (RegisterUser failingGrant [] []
        { userID := "a@b.c", email := "a@b.c" }).1 = Except.error dbError
    ∧ (RegisterUser failingGrant [] []
        { userID := "a@b.c", email := "a@b.c" }).2.1 = []
    ∧ (RegisterUser failingGrant [] []
        { userID := "a@b.c", email := "a@b.c" }).2.2 = [] := by
  have h1 := C9_auto_provision_grants_10_or_rolls_back noFailures [] []
    { userID := "a@b.c", email := "a@b.c" } "a@b.c"
    (by decide) rfl rfl rfl rfl rfl rfl
  have h2 := C9_auto_provision_grants_10_or_rolls_back failingGrant [] []
    { userID := "a@b.c", email := "a@b.c" } "a@b.c"
    (by decide) rfl rfl rfl rfl rfl rfl
  exact ⟨(h1.1 rfl).1.2, ((h2.2 rfl rfl).1).1, ((h2.2 rfl rfl).1).2.1,
    ((h2.2 rfl rfl).1).2.2⟩

end Backend
